import Mathlib

/-!
Verification development for the cartiflette preprocessing pipeline
(src/cartiflette/s3/preprocess.py).

The pandas/geopandas operations used by the pipeline are shallowly embedded
on association-list dataframes: a row is a list of (column name, cell) pairs,
a cell is an optional value (`none` models a missing value / NaN), and a
dataframe carries its column list together with its rows.  Geometries are
embedded symbolically (an opaque identifier, or the empty polygon), since the
pipeline only assigns, counts and carries them, never computes with their
coordinates.
-/

namespace Cartiflette

/-- A cell value: a string, an integer, or a (symbolic) geometry given by the
list of identifiers of the base polygons it is made of. -/
inductive Val where
  | s (v : String)
  | i (v : Int)
  | geom (ids : List String)
deriving DecidableEq, Repr

/-- A cell of a dataframe; `none` models a missing value (NaN). -/
abbrev Cell := Option Val

/-- A dataframe row: an association list from column names to cells. -/
abbrev Row := List (String × Cell)

/-- A dataframe: the declared columns, and the rows. -/
structure DF where
  cols : List String
  rows : List Row
deriving DecidableEq, Repr

/-- Reading the cell of a row at a column; an absent pair reads as NaN. -/
def getCell (r : Row) (c : String) : Cell :=
  (r.lookup c).getD none

/-- `df[df[field].isin(values)]`-style test on one row (NaN is in no list). -/
def cellIsIn (r : Row) (c : String) (values : List Val) : Bool :=
  match getCell r c with
  | some v => values.contains v
  | none => false

/-- One output row of `left.merge(right, on = k, suffixes = ("", "_y"))`:
the left row followed by the right row minus the join key, the right columns
that collide with a left column being renamed with the `_y` suffix. -/
def mergeRowY (leftCols : List String) (k : String) (lr rr : Row) : Row :=
  lr ++ (rr.filter (fun p => ! decide (p.1 = k))).map
    (fun p => (if p.1 ∈ leftCols then p.1 ++ "_y" else p.1, p.2))

/-- `left.merge(right, on = k, suffixes = ("", "_y"))` (inner join): one
output row per pair of rows agreeing on the join key, no deduplication. -/
def mergeOn (left right : DF) (k : String) : DF :=
  { cols := left.cols ++ (right.cols.filter (fun c => ! decide (c = k))).map
      (fun c => if c ∈ left.cols then c ++ "_y" else c),
    rows := left.rows.flatMap (fun lr =>
      (right.rows.filter (fun rr => decide (getCell rr k = getCell lr k))).map
        (mergeRowY left.cols k lr)) }

/-- `str.endswith("_y")`, computed on the character list. -/
def endsY (s : String) : Bool :=
  decide (s.data.reverse.take 2 = ['y', '_'])

/-- Column filter of one row: keep the cells whose name does not end in `_y`
(`df.loc[:, ~df.columns.str.endswith("_y")]`). -/
def filterRowY (r : Row) : Row :=
  r.filter (fun p => ! endsY p.1)

/-- `df.loc[:, ~df.columns.str.endswith("_y")]`. -/
def filterColsY (df : DF) : DF :=
  { cols := df.cols.filter (fun c => ! endsY c),
    rows := df.rows.map filterRowY }

/-- `pd.concat([a, b])`: rows appended, columns aligned by name (a row simply
lacks the cells of the columns the other frame introduced, which read NaN). -/
def concatDF (a b : DF) : DF :=
  { cols := a.cols ++ b.cols.filter (fun c => ! decide (c ∈ a.cols)),
    rows := a.rows ++ b.rows }

/-- `df[c] = f(row)`: (re)assign a column computed row-wise. -/
def addCol (df : DF) (c : String) (f : Row → Cell) : DF :=
  { cols := if c ∈ df.cols then df.cols else df.cols ++ [c],
    rows := df.rows.map (fun r => (r.filter (fun p => ! decide (p.1 = c))) ++ [(c, f r)]) }

/-- `df.drop(c, axis = "columns")`. -/
def dropColDF (df : DF) (c : String) : DF :=
  { cols := df.cols.filter (fun x => ! decide (x = c)),
    rows := df.rows.map (fun r => r.filter (fun p => ! decide (p.1 = c))) }

/-! ## store_vectorfile_communes_arrondissement (src/cartiflette/s3/preprocess.py:235-353)

The pure dataframe core of the function, staged exactly as in the source:
name-column fallback, partition of the communes on the three subdivided
cities, department-code join of the municipal districts, column filtering of
the `_y` duplicates, concatenation, unified-code computation with the
`INSEE_ARM` / `INSEE_RATT` fallback, and drop of the district identifier. -/

/-- The three subdivided cities, in the order of the source literal. -/
def grandesVillesNames : List Val :=
  [Val.s "Marseille", Val.s "Lyon", Val.s "Paris"]

/-- `field = "NOM"`, falling back to `"NOM_COM"` on KeyError. -/
def nameField (communes : DF) : String :=
  if "NOM" ∈ communes.cols then "NOM" else "NOM_COM"

/-- `communes.loc[~communes[field].isin(["Marseille", "Lyon", "Paris"])]`. -/
def communes_sans_grandes_villes (communes : DF) : DF :=
  { communes with
    rows := communes.rows.filter (fun r => ! cellIsIn r (nameField communes) grandesVillesNames) }

/-- `communes.loc[communes[field].isin(["Marseille", "Lyon", "Paris"])]`. -/
def communes_grandes_villes (communes : DF) : DF :=
  { communes with
    rows := communes.rows.filter (fun r => cellIsIn r (nameField communes) grandesVillesNames) }

/-- `arrondissements.merge(communes_grandes_villes, on = "INSEE_DEP",
suffixes = ("", "_y"))` followed by the `_y` column filter. -/
def arrondissement_extra_info (arrondissements communes : DF) : DF :=
  filterColsY (mergeOn arrondissements (communes_grandes_villes communes) "INSEE_DEP")

/-- `pd.concat([communes_sans_grandes_villes, arrondissement_extra_info])`. -/
def gdf_enrichi_concat (arrondissements communes : DF) : DF :=
  concatDF (communes_sans_grandes_villes communes)
    (arrondissement_extra_info arrondissements communes)

/-- `field = "INSEE_ARM"`, falling back to `"INSEE_RATT"` on KeyError. -/
def armField (arrondissements communes : DF) : String :=
  if "INSEE_ARM" ∈ (gdf_enrichi_concat arrondissements communes).cols
  then "INSEE_ARM" else "INSEE_RATT"

/-- `gdf_enrichi["INSEE_COG"] = np.where(gdf_enrichi[field].isnull(),
gdf_enrichi["INSEE_COM"], gdf_enrichi[field])`. -/
def gdf_enrichi_cog (arrondissements communes : DF) : DF :=
  addCol (gdf_enrichi_concat arrondissements communes) "INSEE_COG"
    (fun r => match getCell r (armField arrondissements communes) with
      | some v => some v
      | none => getCell r "INSEE_COM")

/-- The persisted enriched frame: the district identifier column dropped. -/
def store_vectorfile_communes_arrondissement (arrondissements communes : DF) : DF :=
  dropColDF (gdf_enrichi_cog arrondissements communes) (armField arrondissements communes)

/-- Whether a district row carries, in the commune name column, a cell that
is present and is not one of the three subdivided-city names (so the city
name joined from the commune side cannot shadow it). -/
def rowNameSafe (nf : String) (r : Row) : Bool :=
  match r.lookup nf with
  | none => false
  | some none => true
  | some (some v) => ! grandesVillesNames.contains v

/-! ## store_living_area (src/cartiflette/s3/preprocess.py:356-523)

The function is wrapped whole in `try/except Exception: logger.error(e)` and
ends in a bare `return`: it always returns None, logging errors instead of
raising.  The fallible dataframe core is embedded below; persistence is
modelled as the list of (name, frame) artifacts written before returning. -/

/-- Renaming of one column name through a rename mapping
(`df.rename(mapping, axis = 1)` leaves unmapped names unchanged). -/
def renameName (m : List (String × String)) (c : String) : String :=
  (m.lookup c).getD c

/-- `df.rename(dict(zip(old, new)), axis = 1)`. -/
def renameDF (df : DF) (m : List (String × String)) : DF :=
  { cols := df.cols.map (renameName m),
    rows := df.rows.map (fun r => r.map (fun p => (renameName m p.1, p.2))) }

/-- The vintage-specific living-area column renaming: the source binds
`rename` only for the two known values of `bv_source`, so any other value
leaves the local variable unbound and line 473 raises a NameError. -/
def renamePairsBV (bvSource : String) : Option (List (String × String)) :=
  if bvSource = "FondsDeCarte_BV_2022" then
    some [("bv2022", "bv"), ("libbv2022", "libbv")]
  else if bvSource = "FondsDeCarte_BV_2012" then
    some [("bv2012", "bv"), ("libbv2012", "libbv")]
  else none

/-- Renaming of one right-side row of
`communes.merge(bv, left_on = "INSEE_COM", right_on = "codgeo",
how = "right")`: default suffixes, so a right column colliding with a left
column becomes `_y`-suffixed. -/
def renRowR (leftCols : List String) (rr : Row) : Row :=
  rr.map (fun p => (if p.1 ∈ leftCols then p.1 ++ "_y" else p.1, p.2))

/-- Renaming of one left-side row of the same merge: a left column colliding
with a right column becomes `_x`-suffixed. -/
def renRowL (rightCols : List String) (lr : Row) : Row :=
  lr.map (fun p => (if p.1 ∈ rightCols then p.1 ++ "_x" else p.1, p.2))

/-- `left.merge(right, left_on = lk, right_on = rk, how = "right")`: every
right row is kept; a right row matching no left row is carried with the left
columns missing (reading NaN), not dropped. -/
def mergeRightOn (left right : DF) (lk rk : String) : DF :=
  { cols := left.cols.map (fun c => if c ∈ right.cols then c ++ "_x" else c)
      ++ right.cols.map (fun c => if c ∈ left.cols then c ++ "_y" else c),
    rows := right.rows.flatMap (fun rr =>
      match left.rows.filter (fun lr => decide (getCell lr lk = getCell rr rk)) with
      | [] => [renRowR left.cols rr]
      | ms => ms.map (fun lr => renRowL right.cols lr ++ renRowR left.cols rr)) }

/-- `pd.concat(data)` over the frames read from the storage glob. -/
def concatAll (dfs : List DF) : DF :=
  dfs.foldl concatDF ⟨[], []⟩

/-- The integer read from a POPULATION cell, when the cell holds one. -/
def popOf (r : Row) : Option Int :=
  match getCell r "POPULATION" with
  | some (Val.i n) => some n
  | _ => none

/-- The key of a row for the living-area dissolve: the `(bv, libbv)` pair
(`dropna = False`: a missing key is a key like any other). -/
def bvKey (r : Row) : Cell × Cell :=
  (getCell r "bv", getCell r "libbv")

/-- `drop_duplicates(keep = "first")`: first-occurrence deduplication of a
list, with an accumulator of the values already seen. -/
def dedupGo {α : Type} [DecidableEq α] (seen : List α) : List α → List α
  | [] => []
  | k :: rest =>
    if k ∈ seen then dedupGo seen rest else k :: dedupGo (k :: seen) rest

/-- First-occurrence deduplication of the dissolve keys. -/
def dedupKeys (l : List (Cell × Cell)) : List (Cell × Cell) :=
  dedupGo [] l

/-- The member rows of one dissolve group. -/
def groupMembers (df : DF) (k : Cell × Cell) : List Row :=
  df.rows.filter (fun r => decide (bvKey r = k))

/-- Union of the member geometries of one dissolve group, symbolically: the
concatenation of the polygon identifiers carried by the member rows. -/
def unionGeom (members : List Row) : Cell :=
  some (Val.geom (members.flatMap (fun r =>
    match getCell r "geometry" with
    | some (Val.geom ids) => ids
    | _ => [])))

/-- The output row of one dissolve group: keys, unioned geometry, and the
POPULATION summed with pandas semantics (missing values ignored). -/
def dissolveRow (df : DF) (k : Cell × Cell) : Row :=
  [("bv", k.1), ("libbv", k.2),
   ("geometry", unionGeom (groupMembers df k)),
   ("POPULATION", some (Val.i (((groupMembers df k).filterMap popOf).sum)))]

/-- `bv.dissolve(by = ["bv", "libbv"], aggfunc = {"POPULATION": "sum"},
as_index = False, dropna = False)`. -/
def dissolveBV (df : DF) : DF :=
  { cols := ["bv", "libbv", "geometry", "POPULATION"],
    rows := (dedupKeys (df.rows.map bvKey)).map (dissolveRow df) }

/-- The inputs store_living_area depends on: the inventory frames matched by
the storage glob, the commune geometries, and the requested vintage source. -/
structure LAEnv where
  files : List DF
  communes : DF
  bvSource : String
deriving DecidableEq, Repr

/-- The observable outcome of one store_living_area call: what was logged by
the `except` clause, which artifacts were written, and the returned value
(always None in the source). -/
structure LAResult where
  errors : List String
  persisted : List (String × DF)
  ret : Option Val
deriving DecidableEq, Repr

/-- The message of the ValueError raised when the storage glob matches no
file (src/cartiflette/s3/preprocess.py:424-428). -/
def noFileMsg : String := "No file retrieved with the set parameters"

/-- The message of the NameError raised at line 473 when `bv_source` is
neither of the two known vintages. -/
def nameErrMsg : String := "NameError: rename is not defined"

/-- The commune-level joined frame: inventory rows right-joined to commune
geometries on the harmonized identifier, provenance column appended. -/
def livingAreaMerged (env : LAEnv) : DF :=
  addCol (mergeRightOn env.communes (concatAll env.files) "INSEE_COM" "codgeo")
    "source" (fun _ => some (Val.s ("Insee:" ++ env.bvSource)))

/-- store_living_area: body in the order of the source, every raise caught by
the enclosing `except Exception` which logs it; both persists happen after
every fallible step, and the function always returns None. -/
def store_living_area (env : LAEnv) : LAResult :=
  if env.files.isEmpty then
    { errors := [noFileMsg], persisted := [], ret := none }
  else
    match renamePairsBV env.bvSource with
    | none => { errors := [nameErrMsg], persisted := [], ret := none }
    | some m =>
      let bv1 := renameDF (livingAreaMerged env) m
      let bv2 := dissolveBV bv1
      { errors := [],
        persisted := [("COMMUNE/bassins_vie.gpkg", bv1), ("BASSIN-VIE/bassins_vie.gpkg", bv2)],
        ret := none }

/-! ## preprocess_pipeline (src/cartiflette/s3/preprocess.py:587-615)

The per-year task is a fallible action (preprocess_one_year can raise, e.g.
a NameError out of store_vectorfile_communes_arrondissement when a download
failed, src/cartiflette/s3/preprocess.py:281-306).  The threaded branch maps
the task over every year through the pool and drains the result iterator,
catching and logging each exception; the sequential branch is a bare
`for year in years` loop with no handler around the call. -/

/-- Draining of the pebble result iterator: every scheduled year already ran;
each `next()` either succeeds or raises the task exception, which the
`while True` loop catches and logs before continuing. -/
def drainResults : List (Nat × Except String Unit) → List Nat × List String
  | [] => ([], [])
  | (y, Except.ok _) :: rest =>
    let (a, es) := drainResults rest
    (y :: a, es)
  | (y, Except.error e) :: rest =>
    let (a, es) := drainResults rest
    (y :: a, e :: es)

/-- The threaded branch: `pool.map(preprocess_one_year, years)` schedules
every year, then the result iterator is drained with per-year catching. -/
def preprocess_pipeline_threaded (task : Nat → Except String Unit) (years : List Nat) :
    List Nat × List String :=
  drainResults (years.map (fun y => (y, task y)))

/-- The sequential branch: `for year in years: preprocess_one_year(year)`.
No handler: the first exception propagates and ends the loop.  The first
component lists the years whose task was invoked; the second carries the
escaped exception, if any. -/
def preprocess_pipeline_sequential (task : Nat → Except String Unit) :
    List Nat → List Nat × Option String
  | [] => ([], none)
  | y :: ys =>
    match task y with
    | Except.ok _ =>
      let (a, e) := preprocess_pipeline_sequential task ys
      (y :: a, e)
    | Except.error e => ([y], some e)

/-- Whether a year's task succeeds (spec-side helper for the pipeline). -/
def taskOk (task : Nat → Except String Unit) (y : Nat) : Bool :=
  match task y with
  | Except.ok _ => true
  | Except.error _ => false

/-! ## preprocess_banatic (src/cartiflette/s3/preprocess.py:618-1013)

The transitive grouping-geometry resolution loop (lines 917-1001).  A working
row carries the grouping SIREN, the member type, the member SIREN and the
member geometry picked up by the last merge (the ride-along attribute columns
MEMBRE_NOM / MEMBRE_REPR_SUBST / MEMBRE_COMP_CONSERV, constant per triple,
are omitted).  Geometries are symbolic: the loop only assigns the empty
polygon, counts non-null cells and carries values. -/

/-- A geometry of the resolver: the empty polygon `Polygon()` assigned to
"Autre organisme" members, or an opaque commune/grouping geometry. -/
inductive Geom where
  | emptyPoly
  | poly (id : Nat)
deriving DecidableEq, Repr

/-- A working row of `temp_geoms`. -/
structure TRow where
  siren : String
  mtype : String
  msiren : String
  geom : Option Geom
deriving DecidableEq, Repr

/-- A resolved row of `geoms_ok`: (SIREN, MEMBRE_SIREN, geometry). -/
structure RRow where
  siren : String
  msiren : String
  geom : Option Geom
deriving DecidableEq, Repr

/-- The commune geometry lookup `geoms` (SIREN → geometry, possibly NaN when
the SIREN/INSEE correspondence matched no commune geometry). -/
abbrev GeoLookup := List (String × Option Geom)

/-- `siren_insee.merge(communes, on = "INSEE_COM", how = "left")` followed by
the drop of INSEE_COM: each SIREN keeps the geometries of the communes with
its INSEE code, or a NaN geometry when none matches. -/
def buildGeoms (sirenInsee : List (String × String)) (communes : List (String × Geom)) :
    GeoLookup :=
  sirenInsee.flatMap (fun p =>
    match communes.filter (fun c => decide (c.1 = p.2)) with
    | [] => [(p.1, none)]
    | ms => ms.map (fun c => (p.1, some c.2)))

/-- Lines 937-939: `temp_geoms.loc[ix, "geometry"] = Polygon()` for the rows
whose member type is "Autre organisme". -/
def seedOther (l : List TRow) : List TRow :=
  l.map (fun r =>
    if r.mtype = "Autre organisme" then { r with geom := some Geom.emptyPoly } else r)

/-- Lines 943-948: per-group count of rows carrying a non-null geometry
(`[["SIREN", "geometry"]].dropna().groupby("SIREN")["geometry"].count()`). -/
def geomsCollected (l : List TRow) (g : String) : Nat :=
  (l.filter (fun r => decide (r.siren = g) && r.geom.isSome)).length

/-- Lines 950-954: per-group count of member rows
(`[["SIREN", "MEMBRE_SIREN"]].groupby("SIREN")["MEMBRE_SIREN"].count()`). -/
def geomsTarget (l : List TRow) (g : String) : Nat :=
  (l.filter (fun r => decide (r.siren = g))).length

/-- Lines 960-964: `GEOM_SAFE = 1` exactly where the two counts agree. -/
def geomSafe (l : List TRow) (r : TRow) : Bool :=
  geomsCollected l r.siren == geomsTarget l r.siren

/-- The row with its geometry column dropped (line 976). -/
def stripGeom (r : TRow) : TRow :=
  { r with geom := none }

/-- Line 977: `drop_duplicates(keep = "first")` over the geometry-less
working rows. -/
def dedupRows (l : List TRow) : List TRow :=
  dedupGo [] l

/-- `drop_duplicates(["SIREN", "MEMBRE_SIREN"])` over resolved rows, keeping
the first occurrence of each pair (line 983). -/
def dedupPairsGo (seen : List (String × String)) : List RRow → List RRow
  | [] => []
  | r :: rest =>
    if (r.siren, r.msiren) ∈ seen then dedupPairsGo seen rest
    else r :: dedupPairsGo ((r.siren, r.msiren) :: seen) rest

/-- The lookup built from the cumulative resolved set: deduplicated on the
(SIREN, MEMBRE_SIREN) pair, then the member column dropped, each resolved
group contributing one (group SIREN, geometry) row per kept member. -/
def resolvedLookup (acc : List RRow) : GeoLookup :=
  (dedupPairsGo [] acc).map (fun r => (r.siren, r.geom))

/-- Lines 979-992 (and the initial merge of lines 918-920): left merge of the
working rows against a geometry lookup on `MEMBRE_SIREN = SIREN`; a row
matching several lookup rows is expanded into one row per geometry, a row
matching none keeps a NaN geometry. -/
def lookupMerge (l : List TRow) (lk : GeoLookup) : List TRow :=
  l.flatMap (fun r =>
    match lk.filter (fun p => decide (p.1 = r.msiren)) with
    | [] => [{ r with geom := none }]
    | ms => ms.map (fun p => { r with geom := p.2 }))

/-- The loop state: the cumulative `geoms_ok` (flattened, in append order)
and the working `temp_geoms`. -/
structure LoopState where
  resolved : List RRow
  temp : List TRow
deriving DecidableEq, Repr

/-- One round of the `while not temp_geoms.empty` loop (lines 925-992):
seed the "Autre organisme" geometries, compare the per-group counts, move
the rows of the exactly-covered groups to the resolved set, drop the
geometry column of the remaining rows, deduplicate them, and re-merge them
against the cumulative resolved set concatenated with the base geometries. -/
def banatic_round (geoms : GeoLookup) (s : LoopState) : LoopState :=
  let seeded := seedOther s.temp
  let safeRows := seeded.filter (geomSafe seeded)
  let unsafeRows := seeded.filter (fun r => ! geomSafe seeded r)
  let resolved := s.resolved ++ safeRows.map (fun r => ⟨r.siren, r.msiren, r.geom⟩)
  let remaining := dedupRows (unsafeRows.map stripGeom)
  { resolved := resolved,
    temp := lookupMerge remaining (resolvedLookup resolved ++ geoms) }

/-- The loop itself, with explicit fuel: the source has no iteration cap and
no failure path, so exhausted fuel (`none`) models a run that is still
spinning after `fuel` rounds. -/
def banatic_run (geoms : GeoLookup) : Nat → LoopState → Option (List RRow)
  | 0, s => if s.temp.isEmpty then some s.resolved else none
  | fuel + 1, s =>
    if s.temp.isEmpty then some s.resolved
    else banatic_run geoms fuel (banatic_round geoms s)

/-- The initial working table (lines 917-920): the membership rows (geometry
column absent, modelled NaN) left-merged against the commune geometries. -/
def banatic_init (membership : List TRow) (geoms : GeoLookup) : LoopState :=
  { resolved := [], temp := lookupMerge membership geoms }

/-- The (group, member) pair of a working row. -/
def tripleKey (r : TRow) : String × String :=
  (r.siren, r.msiren)

/-- The set of unresolved (group, member) pairs of a working table. -/
def tripleFinset (l : List TRow) : Finset (String × String) :=
  (l.map tripleKey).toFinset

/-- The number of distinct unresolved (group, member) pairs. -/
def tripleCard (l : List TRow) : Nat :=
  (tripleFinset l).card

/-! ## Concrete instances

Small concrete inputs used to evaluate the embedded operations. -/

/-- Shorthand for a string cell. -/
def sv (x : String) : Cell := some (Val.s x)

/-- The Paris commune row. -/
def comParisRow : Row :=
  [("NOM", sv "Paris"), ("INSEE_COM", sv "75056"), ("INSEE_DEP", sv "75"),
   ("POPULATION", some (Val.i 2100000)), ("geometry", some (Val.geom ["gp"]))]

/-- The Paris 1er Arrondissement district row. -/
def arrParisRow : Row :=
  [("NOM", sv "Paris 1er Arrondissement"), ("INSEE_COM", sv "75056"),
   ("INSEE_DEP", sv "75"), ("INSEE_ARM", sv "75101"),
   ("geometry", some (Val.geom ["g1"]))]

/-- A commune frame: Paris (subdivided) and Nice (ordinary). -/
def communesW : DF :=
  { cols := ["NOM", "INSEE_COM", "INSEE_DEP", "POPULATION", "geometry"],
    rows :=
      [comParisRow,
       [("NOM", sv "Nice"), ("INSEE_COM", sv "06088"), ("INSEE_DEP", sv "06"),
        ("POPULATION", some (Val.i 340000)), ("geometry", some (Val.geom ["gn"]))]] }

/-- A municipal-district frame: one Paris arrondissement. -/
def arrondissementsW : DF :=
  { cols := ["NOM", "INSEE_COM", "INSEE_DEP", "INSEE_ARM", "geometry"],
    rows := [arrParisRow] }

/-- The district row of `gdf_enrichi_cog arrondissementsW communesW`: the
city-level attributes joined in and the unified code computed. -/
def cogParisDistrictRow : Row :=
  [("NOM", sv "Paris 1er Arrondissement"), ("INSEE_COM", sv "75056"),
   ("INSEE_DEP", sv "75"), ("INSEE_ARM", sv "75101"),
   ("geometry", some (Val.geom ["g1"])), ("POPULATION", some (Val.i 2100000)),
   ("INSEE_COG", sv "75101")]

/-- A commune frame with no subdivided city at all. -/
def communesCx : DF :=
  { cols := ["NOM", "INSEE_COM", "INSEE_DEP"],
    rows :=
      [[("NOM", sv "Nice"), ("INSEE_COM", sv "06088"), ("INSEE_DEP", sv "06")]] }

/-- A district frame whose department matches no subdivided-city commune of
`communesCx`: the inner department join drops it. -/
def arrondissementsCx : DF :=
  { cols := ["NOM", "INSEE_COM", "INSEE_DEP", "INSEE_ARM"],
    rows :=
      [[("NOM", sv "Paris 1er Arrondissement"), ("INSEE_COM", sv "75056"),
        ("INSEE_DEP", sv "75"), ("INSEE_ARM", sv "75101")]] }

/-- A commune frame for the living-area derivation. -/
def communesLA : DF :=
  { cols := ["INSEE_COM", "NOM", "POPULATION", "geometry"],
    rows :=
      [[("INSEE_COM", sv "01001"), ("NOM", sv "Ambx"),
        ("POPULATION", some (Val.i 100)), ("geometry", some (Val.geom ["g1"]))]] }

/-- A living-area inventory row whose commune code matches no geometry. -/
def unmatchedInvRow : Row :=
  [("codgeo", sv "99999"), ("bv2022", sv "B2"), ("libbv2022", sv "L2")]

/-- A living-area inventory with one matched and one unmatched commune code. -/
def inventoryLA : DF :=
  { cols := ["codgeo", "bv2022", "libbv2022"],
    rows :=
      [[("codgeo", sv "01001"), ("bv2022", sv "B1"), ("libbv2022", sv "L1")],
       unmatchedInvRow] }

/-- A living-area environment whose inventory holds an unmatched code. -/
def envUnmatched : LAEnv :=
  { files := [inventoryLA], communes := communesLA, bvSource := "FondsDeCarte_BV_2022" }

/-- An environment whose storage glob matched no file. -/
def envNoFiles : LAEnv :=
  { files := [], communes := communesLA, bvSource := "FondsDeCarte_BV_2022" }

/-- An environment with an unknown living-area vintage source. -/
def envBadSource : LAEnv :=
  { files := [inventoryLA], communes := communesLA, bvSource := "FondsDeCarte_BV_2042" }

/-- A commune-level living-area frame ready for the dissolve: two member
rows of one area (one with a missing population) and one row with a missing
dissolve key. -/
def dfDissolveW : DF :=
  { cols := ["bv", "libbv", "POPULATION", "geometry"],
    rows :=
      [[("bv", sv "01004"), ("libbv", sv "Amberieu"),
        ("POPULATION", some (Val.i 10)), ("geometry", some (Val.geom ["a"]))],
       [("bv", sv "01004"), ("libbv", sv "Amberieu"),
        ("POPULATION", none), ("geometry", some (Val.geom ["b"]))],
       [("bv", none), ("libbv", none),
        ("POPULATION", some (Val.i 5)), ("geometry", some (Val.geom ["c"]))]] }

/-- A per-year task that raises on 2021 and succeeds elsewhere. -/
def taskBoom : Nat → Except String Unit :=
  fun y => if y = 2021 then Except.error "boom" else Except.ok ()

/-- A cyclic grouping membership: A is a member of B and B a member of A. -/
def membershipCyc : List TRow :=
  [⟨"200000001", "Syndicat", "200000002", none⟩,
   ⟨"200000002", "Syndicat", "200000001", none⟩]

/-- The resolver state on the cyclic membership (no commune geometry). -/
def cycState : LoopState :=
  banatic_init membershipCyc []

/-- Commune geometries for the two-level grouping scenario. -/
def geomsTwoLevel : GeoLookup :=
  buildGeoms [("210000001", "01001"), ("210000002", "01002")]
    [("01001", Geom.poly 1), ("01002", Geom.poly 2)]

/-- A two-level grouping-of-groupings: the child group 200000020 gathers two
communes, the parent group 200000010 has the child as its only member. -/
def membershipTwoLevel : List TRow :=
  [⟨"200000010", "Syndicat", "200000020", none⟩,
   ⟨"200000020", "Commune", "210000001", none⟩,
   ⟨"200000020", "Commune", "210000002", none⟩]

/-- The resolver state of the two-level scenario. -/
def twoLevelState : LoopState :=
  banatic_init membershipTwoLevel geomsTwoLevel

/-- A grouping with three declared members, one of type "Autre organisme"
(a department, with no commune geometry), the other two being communes whose
geometries are available. -/
def membershipAutre : List TRow :=
  [⟨"200000030", "Autre organisme", "220700017", none⟩,
   ⟨"200000030", "Commune", "210000001", none⟩,
   ⟨"200000030", "Commune", "210000002", none⟩]

/-- The resolver state of the "Autre organisme" scenario. -/
def autreState : LoopState :=
  banatic_init membershipAutre geomsTwoLevel

/-- One working row of the two-level scenario after the initial merge. -/
def twoLevelChildRow : TRow :=
  ⟨"200000020", "Commune", "210000001", some (Geom.poly 1)⟩

/-- The "Autre organisme" row of the scenario, seeded with the empty polygon. -/
def autreSeededRow : TRow :=
  ⟨"200000030", "Autre organisme", "220700017", some Geom.emptyPoly⟩

/-- The resolved set of the "Autre organisme" scenario after one round. -/
def autreResolved : List RRow :=
  [⟨"200000030", "220700017", some Geom.emptyPoly⟩,
   ⟨"200000030", "210000001", some (Geom.poly 1)⟩,
   ⟨"200000030", "210000002", some (Geom.poly 2)⟩]

/-! ## General lemmas on the embedded dataframe operations -/

theorem lookup_filterKey_pos (r : Row) (pk : String → Bool) (c : String) (h : pk c = true) :
    (r.filter (fun p => pk p.1)).lookup c = r.lookup c := by
  induction r with
  | nil => rfl
  | cons p rest ih =>
    obtain ⟨k, v⟩ := p
    by_cases hc : k = c
    · subst hc
      rw [List.filter_cons, if_pos (by simpa using h)]
      simp [List.lookup]
    · have hbeq : (c == k) = false := beq_eq_false_iff_ne.mpr (fun he => hc he.symm)
      by_cases hp : pk k = true
      · rw [List.filter_cons, if_pos (by simpa using hp)]
        simp only [List.lookup, hbeq]
        exact ih
      · rw [List.filter_cons, if_neg (by simpa using hp)]
        simp only [List.lookup, hbeq]
        exact ih

theorem lookup_filterKey_neg (r : Row) (pk : String → Bool) (c : String) (h : pk c = false) :
    (r.filter (fun p => pk p.1)).lookup c = none := by
  induction r with
  | nil => rfl
  | cons p rest ih =>
    obtain ⟨k, v⟩ := p
    by_cases hc : k = c
    · subst hc
      rw [List.filter_cons, if_neg (by simp [h])]
      exact ih
    · have hbeq : (c == k) = false := beq_eq_false_iff_ne.mpr (fun he => hc he.symm)
      by_cases hp : pk k = true
      · rw [List.filter_cons, if_pos (by simpa using hp)]
        simp only [List.lookup, hbeq]
        exact ih
      · rw [List.filter_cons, if_neg (by simpa using hp)]
        exact ih

theorem lookup_map_ren_iff (r : Row) (ren : String → String) (c : String)
    (h : ∀ p ∈ r, ren p.1 = c ↔ p.1 = c) :
    (r.map (fun p => (ren p.1, p.2))).lookup c = r.lookup c := by
  induction r with
  | nil => rfl
  | cons p rest ih =>
    obtain ⟨k, v⟩ := p
    have hp := h (k, v) (by simp)
    simp only at hp
    by_cases hc : k = c
    · subst hc
      have hren : ren k = k := hp.mpr rfl
      simp [List.lookup, hren]
    · have hren : ren k ≠ c := fun he => hc (hp.mp he)
      have hbeq : (c == ren k) = false := beq_eq_false_iff_ne.mpr (fun he => hren he.symm)
      have hbeq2 : (c == k) = false := beq_eq_false_iff_ne.mpr (fun he => hc he.symm)
      simp only [List.map_cons, List.lookup, hbeq, hbeq2]
      exact ih (fun q hq => h q (List.mem_cons_of_mem _ hq))

theorem lookup_map_ren_none (r : Row) (ren : String → String) (c : String)
    (h : ∀ p ∈ r, ren p.1 ≠ c) :
    (r.map (fun p => (ren p.1, p.2))).lookup c = none := by
  induction r with
  | nil => rfl
  | cons p rest ih =>
    obtain ⟨k, v⟩ := p
    have hp := h (k, v) (by simp)
    simp only at hp
    have hbeq : (c == ren k) = false := beq_eq_false_iff_ne.mpr (fun he => hp he.symm)
    simp only [List.map_cons, List.lookup, hbeq]
    exact ih (fun q hq => h q (List.mem_cons_of_mem _ hq))

theorem sum_map_ones {α : Type} (l : List α) (f : α → Nat) (h : ∀ a ∈ l, f a = 1) :
    (l.map f).sum = l.length := by
  induction l with
  | nil => rfl
  | cons a rest ih =>
    have := ih (fun x hx => h x (List.mem_cons_of_mem _ hx))
    simp only [List.map_cons, List.sum_cons, List.length_cons, this, h a (by simp)]
    omega

theorem mem_dedupGo {α : Type} [DecidableEq α] (seen l : List α) (x : α) :
    x ∈ dedupGo seen l ↔ x ∈ l ∧ x ∉ seen := by
  induction l generalizing seen with
  | nil => simp [dedupGo]
  | cons k rest ih =>
    by_cases hk : k ∈ seen
    · rw [show dedupGo seen (k :: rest) = dedupGo seen rest from by
        simp [dedupGo, if_pos hk]]
      rw [ih]
      constructor
      · rintro ⟨hx, hs⟩
        exact ⟨List.mem_cons_of_mem _ hx, hs⟩
      · rintro ⟨hx, hs⟩
        rcases List.mem_cons.mp hx with rfl | hx2
        · exact absurd hk hs
        · exact ⟨hx2, hs⟩
    · rw [show dedupGo seen (k :: rest) = k :: dedupGo (k :: seen) rest from by
        simp [dedupGo, if_neg hk]]
      rw [List.mem_cons, ih]
      constructor
      · rintro (rfl | ⟨hx, hs⟩)
        · exact ⟨List.mem_cons_self _ _, hk⟩
        · refine ⟨List.mem_cons_of_mem _ hx, fun hc => hs (List.mem_cons_of_mem _ hc)⟩
      · rintro ⟨hx, hs⟩
        rcases List.mem_cons.mp hx with rfl | hx2
        · exact Or.inl rfl
        · by_cases hxk : x = k
          · exact Or.inl hxk
          · refine Or.inr ⟨hx2, fun hc => ?_⟩
            rcases List.mem_cons.mp hc with rfl | hc2
            · exact hxk rfl
            · exact hs hc2

theorem nodup_dedupGo {α : Type} [DecidableEq α] (seen l : List α) :
    (dedupGo seen l).Nodup := by
  induction l generalizing seen with
  | nil => simp [dedupGo]
  | cons k rest ih =>
    by_cases hk : k ∈ seen
    · rw [show dedupGo seen (k :: rest) = dedupGo seen rest from by
        simp [dedupGo, if_pos hk]]
      exact ih seen
    · rw [show dedupGo seen (k :: rest) = k :: dedupGo (k :: seen) rest from by
        simp [dedupGo, if_neg hk]]
      rw [List.nodup_cons]
      refine ⟨fun hc => ?_, ih (k :: seen)⟩
      rcases (mem_dedupGo _ _ _).mp hc with ⟨-, hs⟩
      exact hs (List.mem_cons_self _ _)

theorem length_dedupGo_eq_card {α : Type} [DecidableEq α] (l : List α) :
    (dedupGo [] l).length = l.toFinset.card := by
  have hnd := nodup_dedupGo ([] : List α) l
  have hfs : (dedupGo [] l).toFinset = l.toFinset := by
    ext x
    simp [List.mem_toFinset, mem_dedupGo]
  rw [← List.toFinset_card_of_nodup hnd, hfs]

/-! ## Lemmas on the transitive grouping-geometry resolver -/

theorem toFinset_map_const {α β : Type} [DecidableEq β] (l : List α) (c : β) (h : l ≠ []) :
    (l.map (fun _ => c)).toFinset = {c} := by
  induction l with
  | nil => exact absurd rfl h
  | cons a rest ih =>
    cases rest with
    | nil => simp
    | cons b t =>
      rw [List.map_cons, List.toFinset_cons, ih (by simp)]
      simp

theorem tripleFinset_seedOther (l : List TRow) :
    tripleFinset (seedOther l) = tripleFinset l := by
  unfold tripleFinset seedOther
  rw [List.map_map]
  congr 1
  refine List.map_congr_left (fun r _ => ?_)
  by_cases h : r.mtype = "Autre organisme" <;> simp [h, tripleKey]

theorem tripleFinset_stripGeom (l : List TRow) :
    tripleFinset (l.map stripGeom) = tripleFinset l := by
  unfold tripleFinset
  rw [List.map_map]
  congr 1

theorem tripleFinset_dedupRows (l : List TRow) :
    tripleFinset (dedupRows l) = tripleFinset l := by
  unfold tripleFinset
  ext k
  simp only [List.mem_toFinset, List.mem_map, dedupRows]
  constructor
  · rintro ⟨r, hr, rfl⟩
    exact ⟨r, ((mem_dedupGo _ _ _).mp hr).1, rfl⟩
  · rintro ⟨r, hr, rfl⟩
    exact ⟨r, (mem_dedupGo _ _ _).mpr ⟨hr, by simp⟩, rfl⟩

theorem tripleFinset_lookupMerge (l : List TRow) (lk : GeoLookup) :
    tripleFinset (lookupMerge l lk) = tripleFinset l := by
  induction l with
  | nil => rfl
  | cons r rest ih =>
    unfold lookupMerge at ih ⊢
    rw [List.flatMap_cons]
    unfold tripleFinset at ih ⊢
    rw [List.map_append, List.toFinset_append, ih, List.map_cons, List.toFinset_cons,
      Finset.insert_eq]
    congr 1
    cases hms : lk.filter (fun p => decide (p.1 = r.msiren)) with
    | nil =>
      simp [tripleKey]
    | cons q qs =>
      rw [List.map_map]
      have hconst : List.map (tripleKey ∘ fun p => { r with geom := p.2 }) (q :: qs)
          = List.map (fun _ => tripleKey r) (q :: qs) := by
        refine List.map_congr_left (fun p _ => ?_)
        rfl
      rw [hconst, toFinset_map_const _ _ (by simp)]

theorem tripleFinset_filter_unsafe (L : List TRow) :
    tripleFinset (L.filter (fun r => ! geomSafe L r)) =
      (tripleFinset L).filter
        (fun k => geomsCollected L k.1 ≠ geomsTarget L k.1) := by
  ext k
  simp only [tripleFinset, List.mem_toFinset, List.mem_map, List.mem_filter,
    Finset.mem_filter, geomSafe]
  constructor
  · rintro ⟨r, ⟨hr, hsafe⟩, rfl⟩
    refine ⟨⟨r, hr, rfl⟩, ?_⟩
    simpa [tripleKey] using hsafe
  · rintro ⟨⟨r, hr, rfl⟩, hne⟩
    refine ⟨r, ⟨hr, ?_⟩, rfl⟩
    simpa [tripleKey] using hne

theorem tripleFinset_round (geoms : GeoLookup) (s : LoopState) :
    tripleFinset (banatic_round geoms s).temp =
      (tripleFinset s.temp).filter
        (fun k => geomsCollected (seedOther s.temp) k.1 ≠ geomsTarget (seedOther s.temp) k.1) := by
  show tripleFinset (lookupMerge _ _) = _
  rw [tripleFinset_lookupMerge, tripleFinset_dedupRows, tripleFinset_stripGeom,
    tripleFinset_filter_unsafe, tripleFinset_seedOther]

theorem tripleCard_round_lt (geoms : GeoLookup) (s : LoopState)
    (h : ∃ r ∈ seedOther s.temp, geomSafe (seedOther s.temp) r = true) :
    tripleCard (banatic_round geoms s).temp < tripleCard s.temp := by
  obtain ⟨r, hr, hsafe⟩ := h
  unfold tripleCard
  rw [tripleFinset_round]
  refine Finset.card_lt_card ?_
  rw [Finset.ssubset_iff_of_subset (Finset.filter_subset _ _)]
  refine ⟨tripleKey r, ?_, ?_⟩
  · rw [← tripleFinset_seedOther]
    exact List.mem_toFinset.mpr (List.mem_map_of_mem tripleKey hr)
  · rw [Finset.mem_filter]
    rintro ⟨-, hne⟩
    exact hne (by simpa [geomSafe, tripleKey] using hsafe)

theorem temp_nonempty_tripleCard_pos (l : List TRow) (h : l ≠ []) :
    0 < tripleCard l := by
  cases l with
  | nil => exact absurd rfl h
  | cons r rest =>
    refine Finset.card_pos.mpr ⟨tripleKey r, ?_⟩
    exact List.mem_toFinset.mpr (List.mem_map_of_mem tripleKey (by simp))

theorem round_temp_empty (geoms : GeoLookup) (s : LoopState) (h : s.temp = []) :
    (banatic_round geoms s).temp = [] := by
  simp [banatic_round, h, seedOther, dedupRows, dedupGo, lookupMerge]

theorem round_iterate_empty (geoms : GeoLookup) :
    ∀ (n : Nat) (s : LoopState), s.temp = [] → ((banatic_round geoms)^[n] s).temp = [] := by
  intro n
  induction n with
  | zero => intro s h; simpa using h
  | succ m ih =>
    intro s h
    rw [Function.iterate_succ_apply]
    exact ih _ (round_temp_empty geoms s h)

/-! ## Claims C1, C2, C3: the transitive grouping-geometry resolver -/

/-- C1 (counterexample): on a cyclic grouping membership (two groups, each
the only member of the other, with no commune geometry), one round of the
resolution loop is the identity on a non-empty working table, so the
`while not temp_geoms.empty` loop of preprocess_banatic spins forever; it
still has not terminated after five rounds, and no error is raised (the
loop body of src/cartiflette/s3/preprocess.py:925-1001 has no raise). -/
theorem preprocess_banatic_cycle_counterexample :
    banatic_round [] cycState = cycState ∧ cycState.temp ≠ [] ∧
      banatic_run [] 5 cycState = none := by
  decide

/-- C1 (amended): each round that resolves at least one group strictly
decreases the number of distinct unresolved (group, member) pairs, so the
resolver terminates within that number of rounds whenever every round with a
non-empty working table resolves some group; when a round makes no progress
the loop body simply repeats without raising any error (see the cyclic
counterexample). -/
theorem preprocess_banatic_progress_termination (geoms : GeoLookup) (fuel : Nat)
    (s : LoopState) (hfuel : tripleCard s.temp ≤ fuel)
    (hprog : ∀ n, ((banatic_round geoms)^[n] s).temp ≠ [] →
      ∃ r ∈ seedOther ((banatic_round geoms)^[n] s).temp,
        geomSafe (seedOther ((banatic_round geoms)^[n] s).temp) r = true) :
    ∃ res, banatic_run geoms fuel s = some res := by
  induction fuel generalizing s with
  | zero =>
    have hempty : s.temp = [] := by
      by_contra h
      have := temp_nonempty_tripleCard_pos s.temp h
      omega
    exact ⟨s.resolved, by simp [banatic_run, hempty]⟩
  | succ f ih =>
    by_cases hempty : s.temp = []
    · exact ⟨s.resolved, by simp [banatic_run, hempty]⟩
    · have h0 := hprog 0
      rw [Function.iterate_zero_apply] at h0
      have hlt := tripleCard_round_lt geoms s (h0 hempty)
      obtain ⟨res, hres⟩ := ih (banatic_round geoms s) (by omega)
        (fun n hne => by
          have hsucc := hprog (n + 1)
          rw [Function.iterate_succ_apply] at hsucc
          exact hsucc hne)
      refine ⟨res, ?_⟩
      have hne : s.temp.isEmpty = false := by
        cases htemp : s.temp with
        | nil => exact absurd htemp hempty
        | cons a t => rfl
      simp [banatic_run, hne, hres]

/-- C1 (witness): the two-level grouping-of-groupings scenario resolves the
child group in round one and the parent in round two, within its bound of
three distinct unresolved pairs. -/
theorem preprocess_banatic_progress_termination_witness :
    tripleCard twoLevelState.temp ≤ 3 ∧
      ∃ res, banatic_run geomsTwoLevel 3 twoLevelState = some res := by
  refine ⟨by decide,
    preprocess_banatic_progress_termination geomsTwoLevel 3 twoLevelState (by decide) ?_⟩
  intro n hne
  match n with
  | 0 => decide
  | 1 => decide
  | n + 2 =>
    refine absurd ?_ hne
    rw [Function.iterate_add_apply]
    exact round_iterate_empty geomsTwoLevel n _ (by decide)

/-- C2: in every round, the rows appended to the resolved set are exactly
the rows of the groups whose count of member rows carrying a non-null
geometry equals the count of their declared member rows; a row of a group
where the two counts differ is not resolved this round and its
(group, member) pair is still present in the next working table. -/
theorem preprocess_banatic_round_resolution (geoms : GeoLookup) (s : LoopState)
    (r : TRow) (hr : r ∈ seedOther s.temp) :
    ((banatic_round geoms s).resolved =
       s.resolved ++ ((seedOther s.temp).filter (geomSafe (seedOther s.temp))).map
         (fun t => ⟨t.siren, t.msiren, t.geom⟩))
  ∧ (r ∈ (seedOther s.temp).filter (geomSafe (seedOther s.temp)) ↔
       geomsCollected (seedOther s.temp) r.siren = geomsTarget (seedOther s.temp) r.siren)
  ∧ (geomsCollected (seedOther s.temp) r.siren ≠ geomsTarget (seedOther s.temp) r.siren →
       tripleKey r ∈ tripleFinset (banatic_round geoms s).temp) := by
  refine ⟨rfl, ?_, ?_⟩
  · rw [List.mem_filter]
    simp [hr, geomSafe]
  · intro hne
    rw [tripleFinset_round, Finset.mem_filter]
    refine ⟨?_, hne⟩
    rw [← tripleFinset_seedOther]
    exact List.mem_toFinset.mpr (List.mem_map_of_mem tripleKey hr)

/-- C2 (witness): in round one of the two-level scenario, the child group
200000020 has as many collected geometries as declared members. -/
theorem preprocess_banatic_round_resolution_witness :
    geomsCollected (seedOther twoLevelState.temp) "200000020" =
      geomsTarget (seedOther twoLevelState.temp) "200000020" :=
  ((preprocess_banatic_round_resolution geomsTwoLevel twoLevelState twoLevelChildRow
      (by decide)).2.1).mp (by decide)

/-- C3: every "Autre organisme" membership row is seeded with an explicit
empty polygon at the top of the round, and a group all of whose rows are
either "Autre organisme" rows or rows already carrying a geometry is safe
(its two counts agree), so such members never block resolution. -/
theorem preprocess_banatic_autre_organisme (s : LoopState) (g : String)
    (hg : ∀ r ∈ s.temp, r.siren = g → r.mtype = "Autre organisme" ∨ r.geom.isSome = true) :
    (∀ r ∈ s.temp, r.mtype = "Autre organisme" →
       { r with geom := some Geom.emptyPoly } ∈ seedOther s.temp)
  ∧ (∀ r ∈ seedOther s.temp, r.siren = g → geomSafe (seedOther s.temp) r = true) := by
  constructor
  · intro r hr hm
    exact List.mem_map.mpr ⟨r, hr, by simp [hm]⟩
  · have hcount : geomsCollected (seedOther s.temp) g = geomsTarget (seedOther s.temp) g := by
      unfold geomsCollected geomsTarget
      refine congrArg List.length (List.filter_congr (fun x hx => ?_))
      by_cases hsx : x.siren = g
      · obtain ⟨y, hy, hxy⟩ := List.mem_map.mp hx
        by_cases hmA : y.mtype = "Autre organisme"
        · have hxg : x.geom.isSome = true := by
            rw [← hxy]
            simp [hmA]
          simp [hsx, hxg]
        · have hxy2 : x = y := by
            rw [← hxy]
            simp [hmA]
          have hys : y.siren = g := by
            rw [← hxy2]
            exact hsx
          rcases hg y hy hys with hA | hS
          · exact absurd hA hmA
          · have hxg : x.geom.isSome = true := by
              rw [hxy2]
              exact hS
            simp [hsx, hxg]
      · simp [hsx]
    intro r hr hrs
    simp [geomSafe, hrs, hcount]

/-- C3 (witness): the three-member grouping with one "Autre organisme"
member is safe in the first round, and the loop resolves it in one round
once the other two members carry their commune geometries. -/
theorem preprocess_banatic_autre_organisme_witness :
    geomSafe (seedOther autreState.temp) autreSeededRow = true ∧
      banatic_run geomsTwoLevel 1 autreState = some autreResolved :=
  ⟨(preprocess_banatic_autre_organisme autreState "200000030" (by decide)).2
      autreSeededRow (by decide) rfl, by decide⟩

/-! ## Claims C9, C10: pipeline and living-area error handling -/

/-- C9 (counterexample): with a task raising on 2021, the sequential branch
of preprocess_pipeline runs 2022 and 2021 but never reaches 2020 (the
`for year in years` loop has no handler and the exception propagates),
while the threaded branch runs all three years and logs the error. -/
theorem preprocess_pipeline_sequential_counterexample :
    preprocess_pipeline_sequential taskBoom [2022, 2021, 2020] = ([2022, 2021], some "boom")
  ∧ preprocess_pipeline_threaded taskBoom [2022, 2021, 2020] =
      ([2022, 2021, 2020], ["boom"]) := by
  decide

/-- C9 (amended): in the threaded branch every year is attempted and each
per-year exception is caught and logged (the error list collects exactly the
failures); in the sequential branch processing stops at the first failing
year, whose exception escapes, and the later years are never attempted. -/
theorem preprocess_pipeline_isolation (task : Nat → Except String Unit) (years : List Nat) :
    ((preprocess_pipeline_threaded task years).1 = years
  ∧ (preprocess_pipeline_threaded task years).2 =
      years.filterMap (fun y => match task y with
        | Except.ok _ => none
        | Except.error e => some e))
  ∧ ((preprocess_pipeline_sequential task years).1 =
      years.takeWhile (taskOk task) ++ (years.dropWhile (taskOk task)).take 1
  ∧ (preprocess_pipeline_sequential task years).2 =
      ((years.dropWhile (taskOk task)).head?).bind (fun y => match task y with
        | Except.ok _ => none
        | Except.error e => some e)) := by
  induction years with
  | nil => simp [preprocess_pipeline_threaded, drainResults, preprocess_pipeline_sequential]
  | cons y ys ih =>
    obtain ⟨⟨iht1, iht2⟩, ihs1, ihs2⟩ := ih
    cases hy : task y with
    | ok u =>
      have hok : taskOk task y = true := by simp [taskOk, hy]
      refine ⟨⟨?_, ?_⟩, ?_, ?_⟩
      · simp only [preprocess_pipeline_threaded, List.map_cons, drainResults, hy]
        simpa [preprocess_pipeline_threaded] using iht1
      · simp only [preprocess_pipeline_threaded, List.map_cons, drainResults, hy,
          List.filterMap_cons]
        simpa [preprocess_pipeline_threaded, hy] using iht2
      · simp only [preprocess_pipeline_sequential, hy, List.takeWhile_cons, hok, if_true,
          List.dropWhile_cons, List.cons_append]
        simpa using ihs1
      · simp only [preprocess_pipeline_sequential, hy, List.dropWhile_cons, hok, if_true]
        simpa using ihs2
    | error e =>
      have hko : taskOk task y = false := by simp [taskOk, hy]
      refine ⟨⟨?_, ?_⟩, ?_, ?_⟩
      · simp only [preprocess_pipeline_threaded, List.map_cons, drainResults, hy]
        simpa [preprocess_pipeline_threaded] using iht1
      · simp only [preprocess_pipeline_threaded, List.map_cons, drainResults, hy,
          List.filterMap_cons]
        simpa [preprocess_pipeline_threaded, hy] using iht2
      · simp [preprocess_pipeline_sequential, hy, List.takeWhile_cons, hko,
          List.dropWhile_cons]
      · simp [preprocess_pipeline_sequential, hy, List.dropWhile_cons, hko]

/-- C10: store_living_area never lets an exception escape: it always returns
None; when the storage glob matched no file the ValueError is logged, the
derivation is skipped and nothing is persisted; when bv_source is neither
known vintage the NameError of the unbound rename variable is logged, the
derivation is skipped and nothing is persisted; and the rename binding is
missing exactly when bv_source is neither known value. -/
theorem store_living_area_no_escape (env : LAEnv) :
    ((store_living_area env).ret = none
  ∧ (env.files = [] →
      store_living_area env = ⟨[noFileMsg], [], none⟩))
  ∧ ((env.files ≠ [] → renamePairsBV env.bvSource = none →
      store_living_area env = ⟨[nameErrMsg], [], none⟩)
  ∧ (renamePairsBV env.bvSource = none ↔
      (env.bvSource ≠ "FondsDeCarte_BV_2022" ∧ env.bvSource ≠ "FondsDeCarte_BV_2012"))) := by
  refine ⟨⟨?_, ?_⟩, ?_, ?_⟩
  · unfold store_living_area
    by_cases hf : env.files.isEmpty
    · simp [hf]
    · simp only [hf, if_false]
      cases renamePairsBV env.bvSource <;> simp
  · intro hf
    unfold store_living_area
    simp [hf]
  · intro hf hr
    unfold store_living_area
    have : env.files.isEmpty = false := by
      cases h : env.files with
      | nil => exact absurd h hf
      | cons a t => rfl
    simp [this, hr]
  · unfold renamePairsBV
    by_cases h22 : env.bvSource = "FondsDeCarte_BV_2022"
    · simp [h22]
    · by_cases h12 : env.bvSource = "FondsDeCarte_BV_2012" <;> simp [h22, h12]

/-- C10 (witness): the empty-glob environment and the unknown-vintage
environment both log the error, persist nothing and return None. -/
theorem store_living_area_no_escape_witness :
    store_living_area envNoFiles = ⟨[noFileMsg], [], none⟩ ∧
      store_living_area envBadSource = ⟨[nameErrMsg], [], none⟩ :=
  ⟨(store_living_area_no_escape envNoFiles).1.2 rfl,
   (store_living_area_no_escape envBadSource).2.1 (by decide) (by decide)⟩

/-! ## Claims C7, C8: the living-area join and dissolve -/

/-- C8: the dissolve groups rows by exactly the (bv, libbv) pair, keeping
groups with missing keys (dropna = False): the output has one row per
distinct key pair of the input, and every output row carries as POPULATION
the sum of the non-null populations of the input rows sharing its pair. -/
theorem store_living_area_dissolve (df : DF) :
    (dissolveBV df).rows.length = ((df.rows.map bvKey).toFinset).card
  ∧ ∀ out ∈ (dissolveBV df).rows,
      getCell out "POPULATION" =
        some (Val.i (((df.rows.filter (fun r =>
          decide (bvKey r = (getCell out "bv", getCell out "libbv")))).filterMap popOf).sum)) := by
  constructor
  · show ((dedupKeys (df.rows.map bvKey)).map (dissolveRow df)).length = _
    rw [List.length_map]
    exact length_dedupGo_eq_card _
  · intro out hout
    obtain ⟨⟨k1, k2⟩, hk, rfl⟩ := List.mem_map.mp hout
    rfl

/-- C8 (witness): the two-member area of the concrete frame (one member
with a missing population) dissolves to population 10, through the theorem
applied to its output row. -/
theorem store_living_area_dissolve_witness :
    getCell (dissolveRow dfDissolveW (sv "01004", sv "Amberieu")) "POPULATION" =
      some (Val.i 10) := by
  have h := (store_living_area_dissolve dfDissolveW).2
    (dissolveRow dfDissolveW (sv "01004", sv "Amberieu")) (by decide)
  rw [h]
  decide

/-- C7 (counterexample): on a concrete run with an inventory row whose
commune code matches no commune geometry, store_living_area reports nothing
(its error log is empty) while the unmatched row is carried into the
persisted commune-level output with a null geometry — the unmatched-join
condition is neither counted nor reported. -/
theorem store_living_area_unmatched_counterexample :
    (store_living_area envUnmatched).errors = []
  ∧ ((store_living_area envUnmatched).persisted.any (fun a =>
      a.2.rows.any (fun r => decide (getCell r "codgeo" = sv "99999")
        && decide (getCell r "geometry" = none)))) = true := by
  decide

/-- C7 (amended): the inventory-to-geometry merge is a right join that keeps
every inventory row — the output length counts one row per inventory row or
one per matching commune geometry when there are several — and an inventory
row matching no commune geometry is carried with every left-side column
(geometry included) reading null; a run that passes the file and vintage
checks logs nothing, whether or not unmatched rows exist. -/
theorem store_living_area_right_join (left right : DF) (lk rk : String) :
    ((mergeRightOn left right lk rk).rows.length =
      (right.rows.map (fun rr =>
        max 1 (left.rows.filter
          (fun lr => decide (getCell lr lk = getCell rr rk))).length)).sum
  ∧ ∀ rr ∈ right.rows,
      left.rows.filter (fun lr => decide (getCell lr lk = getCell rr rk)) = [] →
        renRowR left.cols rr ∈ (mergeRightOn left right lk rk).rows
      ∧ ∀ c, (∀ p ∈ rr, ¬ ((if p.1 ∈ left.cols then p.1 ++ "_y" else p.1) = c)) →
          getCell (renRowR left.cols rr) c = none)
  ∧ ∀ env : LAEnv, env.files ≠ [] → renamePairsBV env.bvSource ≠ none →
      (store_living_area env).errors = [] := by
  refine ⟨⟨?_, ?_⟩, ?_⟩
  · show (right.rows.flatMap _).length = _
    rw [List.length_flatMap]
    congr 1
    refine List.map_congr_left (fun rr _ => ?_)
    cases hms : left.rows.filter (fun lr => decide (getCell lr lk = getCell rr rk)) with
    | nil => simp [Function.comp, hms]
    | cons q qs =>
      simp only [Function.comp, hms, List.length_map, List.length_cons]
      omega
  · intro rr hrr hms
    constructor
    · refine List.mem_flatMap.mpr ⟨rr, hrr, ?_⟩
      rw [hms]
      exact List.mem_singleton.mpr rfl
    · intro c hc
      unfold getCell renRowR
      rw [lookup_map_ren_none rr (fun x => if x ∈ left.cols then x ++ "_y" else x) c hc]
      rfl
  · intro env hf hr
    unfold store_living_area
    have hne : env.files.isEmpty = false := by
      cases h : env.files with
      | nil => exact absurd h hf
      | cons a t => rfl
    cases hrp : renamePairsBV env.bvSource with
    | none => exact absurd hrp hr
    | some m => simp [hne, hrp]

/-- C7 (witness): the concrete unmatched inventory row is kept by the right
join and its geometry column reads null. -/
theorem store_living_area_right_join_witness :
    renRowR communesLA.cols unmatchedInvRow ∈
        (mergeRightOn communesLA inventoryLA "INSEE_COM" "codgeo").rows
  ∧ getCell (renRowR communesLA.cols unmatchedInvRow) "geometry" = none := by
  have h := (store_living_area_right_join communesLA inventoryLA "INSEE_COM" "codgeo").1.2
    unmatchedInvRow (by decide) (by decide)
  exact ⟨h.1, h.2 "geometry" (by decide)⟩

/-! ## Lemmas on the commune/district enrichment -/

theorem armField_cases (A C : DF) :
    armField A C = "INSEE_ARM" ∨ armField A C = "INSEE_RATT" := by
  unfold armField
  split
  · exact Or.inl rfl
  · exact Or.inr rfl

theorem nameField_cases (C : DF) :
    nameField C = "NOM" ∨ nameField C = "NOM_COM" := by
  unfold nameField
  split
  · exact Or.inl rfl
  · exact Or.inr rfl

theorem getCell_filterAppend (r0 : Row) (c cNew : String) (v : Cell) (h : c ≠ cNew) :
    getCell ((r0.filter (fun p => ! decide (p.1 = cNew))) ++ [(cNew, v)]) c = getCell r0 c := by
  unfold getCell
  rw [List.lookup_append,
    lookup_filterKey_pos r0 (fun x => ! decide (x = cNew)) c (by simp [h])]
  cases hl : r0.lookup c with
  | some w => rfl
  | none =>
    have hr : (((cNew, v) : String × Cell) :: []).lookup c = none := by
      simp [List.lookup, beq_eq_false_iff_ne.mpr h]
    simp [Option.or, hr]

theorem getCell_filterAppend_self (r0 : Row) (cNew : String) (v : Cell) :
    getCell ((r0.filter (fun p => ! decide (p.1 = cNew))) ++ [(cNew, v)]) cNew = v := by
  unfold getCell
  rw [List.lookup_append, lookup_filterKey_neg r0 (fun x => ! decide (x = cNew)) cNew (by simp)]
  simp [List.lookup, Option.or]

theorem getCell_dropKey (r : Row) (c dropc : String) (h : c ≠ dropc) :
    getCell (r.filter (fun p => ! decide (p.1 = dropc))) c = getCell r c := by
  unfold getCell
  rw [lookup_filterKey_pos r (fun x => ! decide (x = dropc)) c (by simp [h])]

theorem getCell_filterRowY (r : Row) (c : String) (h : endsY c = false) :
    getCell (filterRowY r) c = getCell r c := by
  unfold getCell filterRowY
  rw [lookup_filterKey_pos r (fun x => ! endsY x) c (by simp [h])]

theorem endsY_append_y (s : String) : endsY (s ++ "_y") = true := by
  unfold endsY
  rw [String.data_append]
  have h2 : ("_y" : String).data = ['_', 'y'] := rfl
  rw [h2, List.reverse_append]
  simp

theorem extra_info_rows_eq (A C : DF) :
    (arrondissement_extra_info A C).rows =
      A.rows.flatMap (fun a =>
        ((communes_grandes_villes C).rows.filter
          (fun cr => decide (getCell cr "INSEE_DEP" = getCell a "INSEE_DEP"))).map
            (fun cr => filterRowY (mergeRowY A.cols "INSEE_DEP" a cr))) := by
  show ((mergeOn A (communes_grandes_villes C) "INSEE_DEP").rows.map filterRowY) = _
  unfold mergeOn
  rw [List.map_flatMap]
  congr 1
  funext a
  rw [List.map_map]
  rfl

/-- Reading the name cell of a joined district row: the district side of the
merge is looked up first, so a district row carrying the name column keeps
its own cell. -/
theorem getCell_mergeRowY_left (leftCols : List String) (k : String) (lr rr : Row)
    (c : String) (v : Cell) (h : lr.lookup c = some v) :
    getCell (mergeRowY leftCols k lr rr) c = v := by
  unfold getCell mergeRowY
  rw [List.lookup_append, h]
  rfl

/-! ## Claim C5: the unified commune code -/

/-- C5: on every row of the concatenated enriched set, INSEE_COG equals the
district identifier cell when it is non-null — the identifier column being
INSEE_ARM, with INSEE_RATT as fallback when INSEE_ARM is absent — and the
commune identifier INSEE_COM otherwise; the district identifier column used
is dropped from the persisted output (absent from its columns, and absent
from every persisted row). -/
theorem store_vectorfile_insee_cog (A C : DF) :
    (∀ r ∈ (gdf_enrichi_cog A C).rows,
      getCell r "INSEE_COG" =
        match getCell r (armField A C) with
        | some v => some v
        | none => getCell r "INSEE_COM")
  ∧ (armField A C ∉ (store_vectorfile_communes_arrondissement A C).cols
  ∧ ∀ r ∈ (store_vectorfile_communes_arrondissement A C).rows,
      r.lookup (armField A C) = none) := by
  have harm : armField A C ≠ "INSEE_COG" := by
    rcases armField_cases A C with h | h <;> rw [h] <;> decide
  refine ⟨?_, ?_, ?_⟩
  · intro r hr
    simp only [gdf_enrichi_cog, addCol, List.mem_map] at hr
    obtain ⟨r0, hr0, rfl⟩ := hr
    rw [getCell_filterAppend_self, getCell_filterAppend r0 (armField A C) "INSEE_COG" _ harm,
      getCell_filterAppend r0 "INSEE_COM" "INSEE_COG" _ (by decide)]
  · intro hmem
    simp only [store_vectorfile_communes_arrondissement, dropColDF, List.mem_filter] at hmem
    simp at hmem
  · intro r hr
    simp only [store_vectorfile_communes_arrondissement, dropColDF, List.mem_map] at hr
    obtain ⟨r0, hr0, rfl⟩ := hr
    exact lookup_filterKey_neg r0 (fun x => ! decide (x = armField A C)) _ (by simp)

/-- C5 (witness): the concrete Paris district row of the enriched set takes
its district identifier 75101 as unified code. -/
theorem store_vectorfile_insee_cog_witness :
    getCell cogParisDistrictRow "INSEE_COG" = sv "75101" := by
  have h := (store_vectorfile_insee_cog arrondissementsW communesW).1
    cogParisDistrictRow (by decide)
  rw [h]
  decide

/-! ## Claim C6: the district join and its duplicate-column filtering -/

/-- C6: the district join is performed on the department code and applies no
row deduplication — the output has one row per (district, matching city) pair
— and duplicate columns are removed by column filtering: no surviving column
ends in the join suffix, every column the district row carries keeps its
district-side value unchanged, and a city-level column the district row
lacks survives with the city-side value. -/
theorem store_vectorfile_merge_columns (A C : DF) :
    ((arrondissement_extra_info A C).rows.length =
      (A.rows.map (fun a => ((communes_grandes_villes C).rows.filter
        (fun cr => decide (getCell cr "INSEE_DEP" = getCell a "INSEE_DEP"))).length)).sum
  ∧ ∀ c ∈ (arrondissement_extra_info A C).cols, endsY c = false)
  ∧ ∀ a ∈ A.rows, ∀ cr ∈ (communes_grandes_villes C).rows,
      getCell cr "INSEE_DEP" = getCell a "INSEE_DEP" →
        (filterRowY (mergeRowY A.cols "INSEE_DEP" a cr) ∈ (arrondissement_extra_info A C).rows
      ∧ (∀ c, (a.lookup c).isSome = true → endsY c = false →
          getCell (filterRowY (mergeRowY A.cols "INSEE_DEP" a cr)) c = getCell a c)
      ∧ (∀ c, a.lookup c = none → c ∉ A.cols → ¬ c = "INSEE_DEP" → endsY c = false →
          getCell (filterRowY (mergeRowY A.cols "INSEE_DEP" a cr)) c = getCell cr c)) := by
  refine ⟨⟨?_, ?_⟩, ?_⟩
  · rw [extra_info_rows_eq, List.length_flatMap]
    congr 1
    refine List.map_congr_left (fun a _ => ?_)
    simp [Function.comp]
  · intro c hc
    simp only [arrondissement_extra_info, filterColsY, List.mem_filter] at hc
    simpa using hc.2
  · intro a ha cr hcr hdep
    refine ⟨?_, ?_, ?_⟩
    · rw [extra_info_rows_eq]
      exact List.mem_flatMap.mpr ⟨a, ha,
        List.mem_map.mpr ⟨cr, List.mem_filter.mpr ⟨hcr, by simp [hdep]⟩, rfl⟩⟩
    · intro c hlook hcY
      rw [getCell_filterRowY _ _ hcY]
      obtain ⟨v, hv⟩ := Option.isSome_iff_exists.mp hlook
      rw [getCell_mergeRowY_left A.cols "INSEE_DEP" a cr c v hv]
      unfold getCell
      rw [hv]
      rfl
    · intro c hnone hnotA hnotDep hcY
      rw [getCell_filterRowY _ _ hcY]
      unfold getCell mergeRowY
      rw [List.lookup_append, hnone]
      have hor : ∀ o : Option Cell, (Option.none).or o = o := fun o => rfl
      rw [hor]
      rw [lookup_map_ren_iff (cr.filter (fun p => ! decide (p.1 = "INSEE_DEP")))
        (fun x => if x ∈ A.cols then x ++ "_y" else x) c (fun p hp => ?_)]
      · rw [lookup_filterKey_pos cr (fun x => ! decide (x = "INSEE_DEP")) c
          (by simp [hnotDep])]
      · show (if p.1 ∈ A.cols then p.1 ++ "_y" else p.1) = c ↔ p.1 = c
        by_cases hpA : p.1 ∈ A.cols
        · rw [if_pos hpA]
          refine iff_of_false (fun he => ?_) (fun he => ?_)
          · exact absurd (he ▸ endsY_append_y p.1) (by simp [hcY])
          · exact absurd (he ▸ hpA) hnotA
        · rw [if_neg hpA]

/-- C6 (witness): the concrete Paris district row joined to the Paris city
row survives in the output and keeps its own district name. -/
theorem store_vectorfile_merge_columns_witness :
    filterRowY (mergeRowY arrondissementsW.cols "INSEE_DEP" arrParisRow comParisRow) ∈
        (arrondissement_extra_info arrondissementsW communesW).rows
  ∧ getCell (filterRowY (mergeRowY arrondissementsW.cols "INSEE_DEP" arrParisRow comParisRow))
        "NOM" = getCell arrParisRow "NOM" := by
  have h := (store_vectorfile_merge_columns arrondissementsW communesW).2 arrParisRow
    (by decide) comParisRow (by decide) (by decide)
  exact ⟨h.1, h.2.1 "NOM" (by decide) (by decide)⟩

/-! ## Claim C4: the enriched commune set -/

theorem cellIsIn_congr (r1 r2 : Row) (c : String) (vals : List Val)
    (h : getCell r1 c = getCell r2 c) :
    cellIsIn r1 c vals = cellIsIn r2 c vals := by
  unfold cellIsIn
  rw [h]

/-- C4 (counterexample): with a commune set containing no subdivided city
and one municipal-district row, the inner department join drops the
district, so the enriched row count is not (ordinary communes) + (district
rows): the claim fails on this input. -/
theorem store_vectorfile_enrichment_counterexample :
    ¬ ((store_vectorfile_communes_arrondissement arrondissementsCx communesCx).rows.length =
        (communes_sans_grandes_villes communesCx).rows.length +
          arrondissementsCx.rows.length) := by
  decide

/-- C4 (amended): provided every district row's department code matches
exactly one subdivided-city commune row, every commune row carries a
non-null INSEE_COM, every district row carries a non-null district
identifier, and no district row carries a subdivided-city name in the
commune name column, the enriched set has row count (communes not named
Marseille/Lyon/Paris) + (district rows), its INSEE_COG column has zero
missing values, and no row's name cell is one of the three city names. -/
theorem store_vectorfile_enrichment (A C : DF)
    (h1 : ∀ a ∈ A.rows, ((communes_grandes_villes C).rows.filter
      (fun cr => decide (getCell cr "INSEE_DEP" = getCell a "INSEE_DEP"))).length = 1)
    (h2 : ∀ r ∈ C.rows, (getCell r "INSEE_COM").isSome = true)
    (h3 : ∀ a ∈ A.rows, (getCell a (armField A C)).isSome = true)
    (h4 : ∀ a ∈ A.rows, rowNameSafe (nameField C) a = true) :
    ((store_vectorfile_communes_arrondissement A C).rows.length =
      (communes_sans_grandes_villes C).rows.length + A.rows.length)
  ∧ ((∀ r ∈ (store_vectorfile_communes_arrondissement A C).rows,
      (getCell r "INSEE_COG").isSome = true)
  ∧ (∀ r ∈ (store_vectorfile_communes_arrondissement A C).rows,
      cellIsIn r (nameField C) grandesVillesNames = false)) := by
  have harmY : endsY (armField A C) = false := by
    rcases armField_cases A C with h | h <;> rw [h] <;> decide
  have harmCOG : ¬ ("INSEE_COG" : String) = armField A C := by
    rcases armField_cases A C with h | h <;> rw [h] <;> decide
  have hnfCOG : ¬ nameField C = "INSEE_COG" := by
    rcases nameField_cases C with h | h <;> rw [h] <;> decide
  have hnfArm : ¬ nameField C = armField A C := by
    rcases nameField_cases C with h | h <;> rcases armField_cases A C with h2 | h2 <;>
      rw [h, h2] <;> decide
  have hnfY : endsY (nameField C) = false := by
    rcases nameField_cases C with h | h <;> rw [h] <;> decide
  have hmem : ∀ r ∈ (store_vectorfile_communes_arrondissement A C).rows,
      ∃ r0 : Row, (r0 ∈ (communes_sans_grandes_villes C).rows ∨
              r0 ∈ (arrondissement_extra_info A C).rows) ∧
        r = ((r0.filter (fun p : String × Cell => ! decide (p.1 = "INSEE_COG"))) ++
          [("INSEE_COG", match getCell r0 (armField A C) with
            | some v => some v
            | none => getCell r0 "INSEE_COM")]).filter
          (fun p : String × Cell => ! decide (p.1 = armField A C)) := by
    intro r hr
    simp only [store_vectorfile_communes_arrondissement, dropColDF, List.mem_map] at hr
    obtain ⟨r1, hr1, rfl⟩ := hr
    simp only [gdf_enrichi_cog, addCol, List.mem_map] at hr1
    obtain ⟨r0, hr0, rfl⟩ := hr1
    simp only [gdf_enrichi_concat, concatDF, List.mem_append] at hr0
    exact ⟨r0, hr0, rfl⟩
  have hmemExtra : ∀ r0 ∈ (arrondissement_extra_info A C).rows,
      ∃ a ∈ A.rows, ∃ cr ∈ (communes_grandes_villes C).rows,
        r0 = filterRowY (mergeRowY A.cols "INSEE_DEP" a cr) := by
    intro r0 h
    rw [extra_info_rows_eq] at h
    obtain ⟨a, ha, h2x⟩ := List.mem_flatMap.mp h
    obtain ⟨cr, hcr, rfl⟩ := List.mem_map.mp h2x
    exact ⟨a, ha, cr, (List.mem_filter.mp hcr).1, rfl⟩
  have harm3 : ∀ a ∈ A.rows, ∃ v, a.lookup (armField A C) = some (some v) := by
    intro a ha
    have h := h3 a ha
    unfold getCell at h
    cases hl : a.lookup (armField A C) with
    | none => rw [hl] at h; simp at h
    | some c =>
      cases c with
      | none => rw [hl] at h; simp at h
      | some v => exact ⟨v, rfl⟩
  refine ⟨?_, ?_, ?_⟩
  · simp only [store_vectorfile_communes_arrondissement, dropColDF, gdf_enrichi_cog, addCol,
      gdf_enrichi_concat, concatDF, List.length_map, List.length_append]
    congr 1
    rw [extra_info_rows_eq, List.length_flatMap]
    refine sum_map_ones A.rows _ (fun a ha => ?_)
    simp only [Function.comp, List.length_map]
    exact h1 a ha
  · intro r hr
    obtain ⟨r0, hr0, rfl⟩ := hmem r hr
    rw [getCell_dropKey _ _ _ harmCOG, getCell_filterAppend_self]
    rcases hr0 with hs | he
    · simp only [communes_sans_grandes_villes] at hs
      have hr0C : r0 ∈ C.rows := (List.mem_filter.mp hs).1
      cases hv : getCell r0 (armField A C) with
      | some v => rfl
      | none => exact h2 r0 hr0C
    · obtain ⟨a, ha, cr, hcr, rfl⟩ := hmemExtra r0 he
      obtain ⟨v, hv⟩ := harm3 a ha
      have hgv : getCell (filterRowY (mergeRowY A.cols "INSEE_DEP" a cr)) (armField A C) =
          some v := by
        rw [getCell_filterRowY _ _ harmY]
        exact getCell_mergeRowY_left _ _ _ _ _ _ hv
      rw [hgv]
      rfl
  · intro r hr
    obtain ⟨r0, hr0, rfl⟩ := hmem r hr
    rw [cellIsIn_congr _ r0 _ _
      (by rw [getCell_dropKey _ _ _ hnfArm, getCell_filterAppend _ _ _ _ hnfCOG])]
    rcases hr0 with hs | he
    · simp only [communes_sans_grandes_villes] at hs
      have := (List.mem_filter.mp hs).2
      simpa using this
    · obtain ⟨a, ha, cr, hcr, rfl⟩ := hmemExtra r0 he
      have hns := h4 a ha
      unfold rowNameSafe at hns
      cases hl : a.lookup (nameField C) with
      | none => rw [hl] at hns; simp at hns
      | some cc =>
        have hg : getCell (filterRowY (mergeRowY A.cols "INSEE_DEP" a cr)) (nameField C) =
            cc := by
          rw [getCell_filterRowY _ _ hnfY]
          exact getCell_mergeRowY_left _ _ _ _ _ _ hl
        unfold cellIsIn
        rw [hg]
        rw [hl] at hns
        cases cc with
        | none => rfl
        | some v => simpa using hns

/-- C4 (witness): on the concrete frames (Paris with one district, plus
Nice), the enriched set has 1 + 1 rows. -/
theorem store_vectorfile_enrichment_witness :
    (store_vectorfile_communes_arrondissement arrondissementsW communesW).rows.length =
      (communes_sans_grandes_villes communesW).rows.length + arrondissementsW.rows.length :=
  (store_vectorfile_enrichment arrondissementsW communesW (by decide) (by decide)
    (by decide) (by decide)).1

end Cartiflette
